import Mathlib

/-!
Shallow embedding of the port-disruption forecaster sources
(src/main.py and src/daily_refresh.py) together with proofs about the
signal normalization and risk-scoring pipeline.

Python strings are embedded as Lean strings; Python numbers that take part
in score arithmetic are embedded as rationals; Python dict .get with a
default is embedded as Option.getD; a Python body that can raise is
embedded in the Except monad, where referencing a module-level name that
the file never imports or defines is a NameError value.
-/

/-! ### String primitives used by the adapters -/

/-- Test whether the pattern list is an initial segment of the second list,
character by character. -/
def subListAt : List Char → List Char → Bool
  | [], _ => true
  | _ :: _, [] => false
  | p :: ps, c :: cs => (p == c) && subListAt ps cs

/-- Test whether the pattern occurs as a contiguous run anywhere in the
second list: embedding of the Python substring test used at
src/daily_refresh.py lines 116, 118, 120 and 128. -/
def hasSub (pat : List Char) : List Char → Bool
  | [] => subListAt pat []
  | c :: cs => subListAt pat (c :: cs) || hasSub pat cs

/-- Python "pat in s" substring containment over our string embedding. -/
def strContains (s pat : String) : Bool :=
  hasSub pat.data s.data

/-- Python str.lower, character by character; the repository only lowers
ASCII feed text and URLs, where Char.toLower agrees with Python. -/
def lowerStr (s : String) : String :=
  String.mk (s.data.map Char.toLower)

/-! ### Data model: GDELT rows and normalized Signal Records -/

/-- One row of the GDELT daily export as read at src/daily_refresh.py
lines 82-84: usecols [0,1,5,26,27,30,34,57] named id, sqldate, country,
event_root, goldstein, location, event_base, source_url. The event-root
code is the value the source compares against the string literals
"14" and "18" at line 87. -/
structure GdeltRow where
  id : Int
  sqldate : Int
  country : String
  event_root : String
  goldstein : ℚ
  location : String
  event_base : String
  source_url : String
deriving DecidableEq

/-- The normalized signal shape inserted into port_disruption_signals
(src/daily_refresh.py lines 53-63 give the schema; the two mapping sites
are lines 124-133 and 151-160). -/
structure SignalRecord where
  source : String
  port_name : String
  country : String
  event_type : String
  description : String
  event_date : String
  impact_score : ℚ
  raw_data : String
deriving DecidableEq

/-! ### EventFeed (GDELT) adapter: src/daily_refresh.py lines 70-94 -/

/-- The two event-root codes kept by the filter at line 87. -/
def gdeltKeepCodes : List String := ["14", "18"]

/-- Embedding of fetch_gdelt_yesterday (lines 70-94). The network fetch,
unzip and CSV parse are external; their outcome is the argument: none
embeds any raised fetch or parse exception, which the except block at
lines 92-94 turns into an empty list, and some rows embeds a successfully
parsed frame, which line 87 filters to the rows whose event_root is in
the two-element code list. -/
def fetch_gdelt_yesterday (raw : Option (List GdeltRow)) : List GdeltRow :=
  match raw with
  | none => []
  | some rows => rows.filter (fun r => decide (r.event_root ∈ gdeltKeepCodes))

/-- Embedding of the per-record GDELT mapping at src/daily_refresh.py
lines 151-160. The raw_data field calls json.dumps; the serializer is a
parameter here because the name json itself is unresolved in the module
(see the NameError embedding below), and this definition captures the
mapping expression only. -/
def mapGdeltRecord (dumps : GdeltRow → String) (r : GdeltRow) : SignalRecord :=
  ⟨"GDELT", r.location, r.country, r.event_root,
    "Event ID " ++ toString r.id ++ ", Goldstein " ++ toString r.goldstein,
    toString r.sqldate,
    |r.goldstein| * 5,
    dumps r⟩

/-! ### PortTrafficFeed (MarineTraffic RSS) adapter:
src/daily_refresh.py lines 97-138 -/

/-- One parsed RSS entry as the adapter consumes it: entry.title,
entry.get summary (which may be missing) and entry.link. -/
structure RssEntry where
  title : String
  summary : Option String
  link : String
deriving DecidableEq

/-- The fixed keyword vocabulary of line 116. -/
def mtKeywords : List String :=
  ["congestion", "delay", "waiting", "anchorage", "queue", "strike",
   "protest", "blockade"]

/-- The two configured feed URLs of lines 101-105. -/
def mtFeeds : List String :=
  ["https://www.marinetraffic.com/ais/index/rss?port=SHANGHAI",
   "https://www.marinetraffic.com/ais/index/rss?port=LOSANGELES"]

/-- Port-name resolution from the feed URL, lines 117-122: start from
Unknown, then test the lowercased URL for the substring shanghai, then
for the substring los angeles. -/
def resolvePortName (url : String) : String :=
  if strContains (lowerStr url) "shanghai" then "Shanghai"
  else if strContains (lowerStr url) "los angeles" then "Los Angeles"
  else "Unknown"

/-- The keyword test of line 116: some keyword occurs in the lowercased
title or in the lowercased summary (a missing summary reads as the empty
string, as in the Python expression with the or fallback at line 113). -/
def entryMatches (e : RssEntry) : Bool :=
  mtKeywords.any (fun k =>
    strContains (lowerStr e.title) k ||
    strContains (lowerStr (e.summary.getD "")) k)

/-- The per-entry body of the feed loop, lines 112-133: entries matching
no keyword produce nothing; a matching entry produces one signal whose
event_type and impact_score are decided by whether congestion occurs in
the lowercased title, whose port_name comes from the URL, and whose
event_date is the current time (a parameter here). -/
def mkMtSignal (url now : String) (e : RssEntry) : Option SignalRecord :=
  if entryMatches e then
    some ⟨"MarineTraffic", resolvePortName url, "Unknown",
      if strContains (lowerStr e.title) "congestion" then "Congestion"
      else "Disruption",
      e.title ++ " - " ++ e.summary.getD "",
      now,
      if strContains (lowerStr e.title) "congestion" then 25 else 15,
      e.link⟩
  else none

/-- Embedding of parse_marinetraffic_rss, lines 97-138, on the list of
successfully fetched feeds (a feed whose fetch or parse raises is caught
at lines 135-136 and contributes nothing, so it simply does not appear in
the argument). Each feed contributes the signals of its first 20 entries. -/
def parse_marinetraffic_rss (now : String)
    (feedEntries : List (String × List RssEntry)) : List SignalRecord :=
  (feedEntries.map (fun f => (f.2.take 20).filterMap (mkMtSignal f.1 now))).flatten

/-! ### Risk scoring: src/main.py lines 40-64 -/

/-- The per-source risk dictionary the query path consumes: the shape of
get_port_congestion output (and of the intended get_gdelt_signals
output), read with dict .get and default 0 at src/main.py lines 49
and 60. -/
structure RiskDict where
  risk : Option ℚ
  vessels_waiting : Option Int
deriving DecidableEq

/-- Python congestion.get with key risk and default 0. -/
def RiskDict.riskD (d : RiskDict) : ℚ := d.risk.getD 0

/-- Python congestion.get with key vessels_waiting and default 0. -/
def RiskDict.vesselsD (d : RiskDict) : Int := d.vessels_waiting.getD 0

/-- Python round to one decimal place rounds half to even; only ever
applied here to exact sums of contributions. -/
def roundHalfEven (q : ℚ) : ℤ :=
  if q - ⌊q⌋ < 1 / 2 then ⌊q⌋
  else if q - ⌊q⌋ > 1 / 2 then ⌊q⌋ + 1
  else if ⌊q⌋ % 2 = 0 then ⌊q⌋ else ⌊q⌋ + 1

/-- Python round with ndigits 1, as used at src/main.py line 55. -/
def pyRound1 (q : ℚ) : ℚ := (roundHalfEven (q * 10) : ℚ) / 10

/-- Python int() applied to a rational truncates toward zero. -/
def pyIntTrunc (q : ℚ) : ℤ := if 0 ≤ q then ⌊q⌋ else ⌈q⌉

/-- The banding expression of src/main.py line 50. -/
def riskLevel (score : ℚ) : String :=
  if score > 60 then "High" else if score > 30 then "Medium" else "Low"

/-- The delay expression of src/main.py line 57. -/
def predictedDelay (score : ℚ) : Option ℤ :=
  if score > 20 then some (pyIntTrunc (score / 5)) else none

/-- One contributing-signal tuple of the response, src/main.py
lines 16-20. -/
structure ForecastSignal where
  source : String
  type : String
  value : String
  impact : ℚ
deriving DecidableEq

/-- The per-port response record, src/main.py lines 22-30. -/
structure ForecastResult where
  port : String
  country : String
  disruption_risk_score : ℚ
  risk_level : String
  predicted_delay_days : Option ℤ
  confidence : ℚ
  contributing_signals : List ForecastSignal
  recommendations : List String
deriving DecidableEq

/-- The ForecastResult construction of src/main.py lines 49-64 for one
port, given the two per-source risk dictionaries. The contributing
signals list is the literal one-element list of lines 59-62: a single
MarineTraffic entry, whatever the scores are. -/
def buildResult (port : String) (congestion gdelt : RiskDict) : ForecastResult :=
  let score := congestion.riskD + gdelt.riskD
  ⟨port, "Unknown",
    pyRound1 score,
    riskLevel score,
    predictedDelay score,
    85 / 100,
    [⟨"MarineTraffic", "Congestion",
      toString congestion.vesselsD ++ " vessels", congestion.riskD⟩],
    if score > 50 then ["Reroute via alternative port", "Increase buffer stock"]
    else ["Monitor"]⟩

/-! ### Exceptions crossing the two entry points -/

/-- The exceptions the embedded bodies can raise: the explicit
HTTPException of src/main.py line 38, and Python NameError for a
module-level name that the file never imports or defines. -/
inductive PyErr where
  | httpException (code : ℤ) (detail : String)
  | nameError (nm : String)
deriving DecidableEq

/-- Evaluating the name get_gdelt_signals in src/main.py: the module
imports fastapi, pydantic, typing, app.config, app.clickhouse_client and
app.sources.marinetraffic (lines 1-6), leaves further source imports as
the comment at line 7, and defines no such function, so the reference at
line 44 raises NameError. -/
def get_gdelt_signals_name : Except PyErr (String → List String → RiskDict) :=
  Except.error (PyErr.nameError "get_gdelt_signals")

/-- Evaluating the name datetime in src/main.py: the module has no
datetime import, so line 66 raises NameError when building as_of. -/
def datetime_name_in_main : Except PyErr String :=
  Except.error (PyErr.nameError "datetime")

/-- Evaluating the name json in src/daily_refresh.py: the module imports
datetime, requests, zipfile, io, logging, pandas, clickhouse_driver,
feedparser, typing, os and dotenv (lines 15-25) but never json, so the
json.dumps call at line 159 raises NameError. -/
def json_name_in_refresh : Except PyErr (GdeltRow → String) :=
  Except.error (PyErr.nameError "json")

/-- The request body of the forecast endpoint, src/main.py lines 11-14. -/
structure ForecastQuery where
  ports : List String
  horizon_days : ℤ
  keywords : Option (List String)

/-- The response value of src/main.py line 66. -/
structure ForecastResponse where
  forecasts : List ForecastResult
  as_of : String
deriving DecidableEq

/-- The per-port loop of src/main.py lines 41-64: for each port, read the
congestion dictionary (get_port_congestion lives outside src, so its
per-port results are a parameter), evaluate the name get_gdelt_signals,
and append the built result. -/
def forecastLoop (congestionOf : String → RiskDict) (keywords : List String) :
    List String → Except PyErr (List ForecastResult)
  | [] => Except.ok []
  | port :: rest => do
    let congestion := congestionOf port
    let gds ← get_gdelt_signals_name
    let gdelt := gds port keywords
    let more ← forecastLoop congestionOf keywords rest
    Except.ok (buildResult port congestion gdelt :: more)

/-- Embedding of the forecast_disruption handler, src/main.py
lines 33-66: the API-key check of lines 37-38, then the per-port loop,
then the as_of timestamp of line 66 via the name datetime. -/
def forecast_disruption (apiKeySetting : String) (xApiKey : Option String)
    (q : ForecastQuery) (congestionOf : String → RiskDict) :
    Except PyErr ForecastResponse := do
  if xApiKey ≠ some apiKeySetting then
    throw (PyErr.httpException 401 "Invalid API key")
  let results ← forecastLoop congestionOf (q.keywords.getD []) q.ports
  let stamp ← datetime_name_in_main
  Except.ok ⟨results, stamp ++ "Z"⟩

/-! ### Ingestion job: src/daily_refresh.py lines 141-173 -/

/-- The per-source insert counts the job logs at lines 162 and 168;
none means that source had no records so nothing was inserted or
logged for it. -/
structure RefreshSummary where
  gdelt_inserted : Option ℕ
  marinetraffic_inserted : Option ℕ
deriving DecidableEq

/-- The GDELT mapping loop of src/daily_refresh.py lines 149-160: each
record evaluates the name json for its raw_data field. -/
def mapGdeltLoop : List GdeltRow → Except PyErr (List SignalRecord)
  | [] => Except.ok []
  | r :: rest => do
    let dumps ← json_name_in_refresh
    let more ← mapGdeltLoop rest
    Except.ok (mapGdeltRecord dumps r :: more)

/-- Embedding of daily_refresh, src/daily_refresh.py lines 141-173, given
the two fetch results (each fetch already catches its own exceptions and
degrades to an empty list, so the arguments are plain lists). A truthy
GDELT list enters the mapping loop and then inserts; a truthy
MarineTraffic list inserts directly; the summary carries the logged
counts. -/
def daily_refresh (gdelt_records : List GdeltRow)
    (mt_signals : List SignalRecord) : Except PyErr RefreshSummary := do
  let gCount ←
    if gdelt_records.isEmpty then Except.ok none
    else do
      let mapped ← mapGdeltLoop gdelt_records
      Except.ok (some mapped.length)
  let mCount := if mt_signals.isEmpty then none else some mt_signals.length
  Except.ok ⟨gCount, mCount⟩

/-! ### Theorems -/

/-- C1: the claim says an authorized forecast request returns one result
per requested port and never raises. The code raises NameError on this
path: with a matching API key and one requested port the handler fails at
the undefined name get_gdelt_signals (src/main.py line 44), and even with
an empty port list it fails at the unimported name datetime
(src/main.py line 66). -/
theorem C1_forecast_raises_nameerror :
    forecast_disruption "secret" (some "secret") ⟨["Shanghai"], 30, none⟩
        (fun _ => ⟨none, none⟩) =
      Except.error (PyErr.nameError "get_gdelt_signals") ∧
    forecast_disruption "secret" (some "secret") ⟨[], 30, none⟩
        (fun _ => ⟨none, none⟩) =
      Except.error (PyErr.nameError "datetime") := by
  exact ⟨rfl, rfl⟩

/-- C2: the claim says the ingestion job never raises past its own
boundary and completes logging per-source counts. The per-source fetches
do catch their own errors, but as soon as the GDELT fetch yields at least
one filtered record, daily_refresh raises NameError at the unimported
name json (src/daily_refresh.py line 159); with no GDELT records the job
completes. -/
theorem C2_refresh_raises_nameerror :
    daily_refresh
        (fetch_gdelt_yesterday
          (some [⟨1, 20250101, "US", "14", 5, "Long Beach, California", "145",
            "http://example.com/a"⟩]))
        [] =
      Except.error (PyErr.nameError "json") ∧
    daily_refresh (fetch_gdelt_yesterday none)
        [⟨"MarineTraffic", "Shanghai", "Unknown", "Congestion", "d", "t", 25, "l"⟩] =
      Except.ok ⟨none, some 1⟩ := by
  exact ⟨rfl, rfl⟩

/-- C3 counterexample: the claim says the zero-risk result has an empty
contributing_signals sequence, but the construction at src/main.py
lines 59-62 always appends one MarineTraffic entry, so with both source
risks absent (contributing risk zero) the list is not empty. -/
theorem C3_counterexample :
    (buildResult "Shanghai" ⟨none, none⟩ ⟨none, none⟩).contributing_signals ≠ [] := by
  decide

/-- C3 amended: for a port whose queried sources yield zero contributing
risk, the result has disruption_risk_score 0, risk_level Low, no
predicted delay, confidence 0.85, and contributing_signals equal to a
single MarineTraffic Congestion entry of impact 0 (not the empty
sequence), without erroring. -/
theorem C3_zero_risk_result (port : String) (congestion gdelt : RiskDict)
    (h1 : congestion.riskD = 0) (h2 : gdelt.riskD = 0) :
    (buildResult port congestion gdelt).disruption_risk_score = 0 ∧
    (buildResult port congestion gdelt).risk_level = "Low" ∧
    (buildResult port congestion gdelt).predicted_delay_days = none ∧
    (buildResult port congestion gdelt).confidence = 85 / 100 ∧
    (buildResult port congestion gdelt).contributing_signals.map
        (fun s => (s.source, s.type, s.impact)) =
      [("MarineTraffic", "Congestion", 0)] := by
  unfold buildResult
  rw [h1, h2]
  refine ⟨?_, ?_, ?_, rfl, by simp [h1]⟩
  · norm_num [pyRound1, roundHalfEven]
  · norm_num [riskLevel]
  · norm_num [predictedDelay]

/-- C3 witness: the amended statement at the concrete zero-risk input. -/
theorem C3_zero_risk_witness :
    (buildResult "Shanghai" ⟨none, none⟩ ⟨none, none⟩).disruption_risk_score = 0 ∧
    (buildResult "Shanghai" ⟨none, none⟩ ⟨none, none⟩).risk_level = "Low" ∧
    (buildResult "Shanghai" ⟨none, none⟩ ⟨none, none⟩).predicted_delay_days = none ∧
    (buildResult "Shanghai" ⟨none, none⟩ ⟨none, none⟩).confidence = 85 / 100 ∧
    (buildResult "Shanghai" ⟨none, none⟩ ⟨none, none⟩).contributing_signals.map
        (fun s => (s.source, s.type, s.impact)) =
      [("MarineTraffic", "Congestion", 0)] :=
  C3_zero_risk_result "Shanghai" ⟨none, none⟩ ⟨none, none⟩ rfl rfl

/-- C4: the banding of src/main.py line 50 is High exactly above 60,
Medium exactly on the half-open band from 30 exclusive to 60 inclusive,
Low exactly at 30 and below; in particular 60 bands to Medium and 30
bands to Low. -/
theorem C4_risk_banding (score : ℚ) :
    (riskLevel score = "High" ↔ 60 < score) ∧
    (riskLevel score = "Medium" ↔ 30 < score ∧ score ≤ 60) ∧
    (riskLevel score = "Low" ↔ score ≤ 30) ∧
    riskLevel 60 = "Medium" ∧ riskLevel 30 = "Low" := by
  refine ⟨?_, ?_, ?_, by norm_num [riskLevel], by norm_num [riskLevel]⟩ <;>
    unfold riskLevel <;> split_ifs with h h' <;> simp_all <;> linarith

/-- C4 witness: the banding equivalences applied at score 60. -/
theorem C4_risk_banding_witness :
    (riskLevel 60 = "Medium" ↔ 30 < (60 : ℚ) ∧ (60 : ℚ) ≤ 60) ∧
    riskLevel 60 = "Medium" :=
  ⟨(C4_risk_banding 60).2.1, (C4_risk_banding 60).2.2.2.1⟩

/-- C5: the delay of src/main.py line 57 is present exactly above
score 20 and then equals the floor of a fifth of the score (the Python
int truncation agrees with the floor because the score is positive
there); at 20 it is absent and at 20.1 it is 4. -/
theorem C5_predicted_delay (score : ℚ) :
    ((predictedDelay score).isSome ↔ 20 < score) ∧
    (20 < score → predictedDelay score = some ⌊score / 5⌋) ∧
    predictedDelay 20 = none ∧
    predictedDelay (201 / 10) = some 4 := by
  refine ⟨?_, ?_, by norm_num [predictedDelay], ?_⟩
  · unfold predictedDelay
    split_ifs with h <;> simp [h]
  · intro h
    have h5 : (0 : ℚ) ≤ score / 5 := by positivity
    simp [predictedDelay, h, pyIntTrunc, h5]
  · have h4 : ⌊(201 / 10 : ℚ) / 5⌋ = 4 := by norm_num
    simp [predictedDelay, pyIntTrunc, h4]
    norm_num

/-- C5 witness: the delay equivalences applied at score 21. -/
theorem C5_predicted_delay_witness :
    predictedDelay 21 = some ⌊(21 : ℚ) / 5⌋ ∧ predictedDelay 20 = none :=
  ⟨(C5_predicted_delay 21).2.1 (by norm_num), (C5_predicted_delay 21).2.2.1⟩

/-- C6: the filter at src/daily_refresh.py line 87 keeps exactly the rows
whose event_root code is 14 or 18: membership in the output is membership
in the input together with one of the two codes, and a row with neither
code is excluded. -/
theorem C6_gdelt_filter (rows : List GdeltRow) (r : GdeltRow) :
    (r ∈ fetch_gdelt_yesterday (some rows) ↔
      r ∈ rows ∧ (r.event_root = "14" ∨ r.event_root = "18")) ∧
    (r.event_root ≠ "14" → r.event_root ≠ "18" →
      r ∉ fetch_gdelt_yesterday (some rows)) := by
  constructor
  · simp [fetch_gdelt_yesterday, List.mem_filter, gdeltKeepCodes]
  · intro h14 h18 hmem
    simp [fetch_gdelt_yesterday, List.mem_filter, gdeltKeepCodes,
      h14, h18] at hmem

/-- C6 witness: a concrete row with code 03 is excluded and a concrete
row with code 14 is retained. -/
theorem C6_gdelt_filter_witness :
    (⟨1, 20250101, "US", "03", 2, "Oakland", "030", "u"⟩ : GdeltRow) ∉
      fetch_gdelt_yesterday
        (some [⟨1, 20250101, "US", "03", 2, "Oakland", "030", "u"⟩,
               ⟨2, 20250101, "CN", "14", 4, "Shanghai", "145", "v"⟩]) ∧
    (⟨2, 20250101, "CN", "14", 4, "Shanghai", "145", "v"⟩ : GdeltRow) ∈
      fetch_gdelt_yesterday
        (some [⟨1, 20250101, "US", "03", 2, "Oakland", "030", "u"⟩,
               ⟨2, 20250101, "CN", "14", 4, "Shanghai", "145", "v"⟩]) :=
  ⟨(C6_gdelt_filter
      [⟨1, 20250101, "US", "03", 2, "Oakland", "030", "u"⟩,
       ⟨2, 20250101, "CN", "14", 4, "Shanghai", "145", "v"⟩]
      ⟨1, 20250101, "US", "03", 2, "Oakland", "030", "u"⟩).2
    (by decide) (by decide),
   (C6_gdelt_filter
      [⟨1, 20250101, "US", "03", 2, "Oakland", "030", "u"⟩,
       ⟨2, 20250101, "CN", "14", 4, "Shanghai", "145", "v"⟩]
      ⟨2, 20250101, "CN", "14", 4, "Shanghai", "145", "v"⟩).1.mpr
    (by decide)⟩

/-- C7: every mapped GDELT record carries impact_score equal to five
times the absolute Goldstein value (src/daily_refresh.py line 158), hence
a non-negative score, and a score of at most 50 whenever the Goldstein
value lies between -10 and 10. -/
theorem C7_gdelt_impact (dumps : GdeltRow → String) (r : GdeltRow) :
    (mapGdeltRecord dumps r).impact_score = |r.goldstein| * 5 ∧
    0 ≤ (mapGdeltRecord dumps r).impact_score ∧
    (-10 ≤ r.goldstein → r.goldstein ≤ 10 →
      (mapGdeltRecord dumps r).impact_score ≤ 50) := by
  refine ⟨rfl, ?_, ?_⟩
  · have := abs_nonneg r.goldstein
    show 0 ≤ |r.goldstein| * 5
    linarith
  · intro hlo hhi
    have habs : |r.goldstein| ≤ 10 := abs_le.mpr ⟨hlo, hhi⟩
    show |r.goldstein| * 5 ≤ 50
    linarith

/-- C7 witness: the mapping applied to a record with Goldstein -7. -/
theorem C7_gdelt_impact_witness :
    (mapGdeltRecord (fun _ => "")
        ⟨3, 20250101, "NL", "18", -7, "Rotterdam", "181", "w"⟩).impact_score =
      |(-7 : ℚ)| * 5 ∧
    (mapGdeltRecord (fun _ => "")
        ⟨3, 20250101, "NL", "18", -7, "Rotterdam", "181", "w"⟩).impact_score ≤ 50 :=
  ⟨(C7_gdelt_impact (fun _ => "")
      ⟨3, 20250101, "NL", "18", -7, "Rotterdam", "181", "w"⟩).1,
   (C7_gdelt_impact (fun _ => "")
      ⟨3, 20250101, "NL", "18", -7, "Rotterdam", "181", "w"⟩).2.2
    (by norm_num) (by norm_num)⟩

/-- C8: an entry whose lowercased title and lowercased summary contain
none of the eight fixed keywords produces no signal
(src/daily_refresh.py line 116 guards every append). -/
theorem C8_no_keyword_no_signal (url now : String) (e : RssEntry)
    (h : ∀ k ∈ mtKeywords,
      strContains (lowerStr e.title) k = false ∧
      strContains (lowerStr (e.summary.getD "")) k = false) :
    mkMtSignal url now e = none := by
  have hm : entryMatches e = false := by
    unfold entryMatches
    rw [List.any_eq_false]
    intro k hk
    simp [(h k hk).1, (h k hk).2]
  simp [mkMtSignal, hm]

/-- C8 witness: a calm entry with no keyword is discarded. -/
theorem C8_no_keyword_no_signal_witness :
    mkMtSignal "u" "t" ⟨"Calm day at sea", none, "x"⟩ = none :=
  C8_no_keyword_no_signal "u" "t" ⟨"Calm day at sea", none, "x"⟩ (by decide)

/-- C9: every emitted signal has event_type Congestion exactly when the
lowercased title contains congestion and event_type Disruption otherwise,
with impact_score 25 for Congestion and 15 for Disruption
(src/daily_refresh.py lines 128 and 131). -/
theorem C9_type_and_impact (url now : String) (e : RssEntry) (s : SignalRecord)
    (h : mkMtSignal url now e = some s) :
    (s.event_type = "Congestion" ↔
      strContains (lowerStr e.title) "congestion" = true) ∧
    (s.event_type = "Congestion" → s.impact_score = 25) ∧
    (s.event_type = "Disruption" → s.impact_score = 15) ∧
    (s.event_type = "Congestion" ∨ s.event_type = "Disruption") := by
  unfold mkMtSignal at h
  by_cases hm : entryMatches e = true
  · rw [if_pos hm] at h
    by_cases hc : strContains (lowerStr e.title) "congestion" = true
    · rw [if_pos hc, if_pos hc] at h
      cases h
      simp [hc]
    · rw [if_neg hc, if_neg hc] at h
      cases h
      simp [hc]
  · rw [if_neg hm] at h
    cases h

/-- C9 witness: the congestion-titled entry yields the Congestion type
and impact 25. -/
theorem C9_type_and_impact_witness :
    (⟨"MarineTraffic", "Unknown", "Unknown", "Congestion",
      "Congestion at anchorage - ", "t", 25, "l"⟩ : SignalRecord).event_type =
      "Congestion" ∧
    (⟨"MarineTraffic", "Unknown", "Unknown", "Congestion",
      "Congestion at anchorage - ", "t", 25, "l"⟩ : SignalRecord).impact_score =
      25 := by
  have h9 := C9_type_and_impact "u" "t" ⟨"Congestion at anchorage", none, "l"⟩
    ⟨"MarineTraffic", "Unknown", "Unknown", "Congestion",
      "Congestion at anchorage - ", "t", 25, "l"⟩ (by decide)
  exact ⟨h9.1.mpr (by decide), h9.2.1 (h9.1.mpr (by decide))⟩

/-- C10: the configured Los Angeles feed URL resolves to port_name
Unknown, because its lowercase form has no space and so does not contain
the searched substring los angeles; the Shanghai URL resolves to
Shanghai; every signal emitted from the Los Angeles URL carries port_name
Unknown; and among the two configured feeds only the Shanghai URL
resolves to a named port. -/
theorem C10_losangeles_feed_unknown :
    resolvePortName "https://www.marinetraffic.com/ais/index/rss?port=LOSANGELES" =
      "Unknown" ∧
    resolvePortName "https://www.marinetraffic.com/ais/index/rss?port=SHANGHAI" =
      "Shanghai" ∧
    strContains
        (lowerStr "https://www.marinetraffic.com/ais/index/rss?port=LOSANGELES")
        "los angeles" = false ∧
    (∀ now : String, ∀ e : RssEntry, ∀ s : SignalRecord,
      mkMtSignal "https://www.marinetraffic.com/ais/index/rss?port=LOSANGELES"
          now e = some s →
      s.port_name = "Unknown") ∧
    (∀ url ∈ mtFeeds, resolvePortName url ≠ "Unknown" →
      url = "https://www.marinetraffic.com/ais/index/rss?port=SHANGHAI") := by
  refine ⟨by decide, by decide, by decide, ?_, ?_⟩
  · intro now e s h
    unfold mkMtSignal at h
    by_cases hm : entryMatches e = true
    · rw [if_pos hm] at h
      cases h
      show resolvePortName
        "https://www.marinetraffic.com/ais/index/rss?port=LOSANGELES" = "Unknown"
      decide
    · rw [if_neg hm] at h
      cases h
  · intro url hu hr
    simp only [mtFeeds, List.mem_cons, List.not_mem_nil, or_false] at hu
    rcases hu with rfl | rfl
    · rfl
    · exact absurd (by decide) hr

/-- C10 witness: a strike-titled entry from the Los Angeles feed URL
produces a signal whose port_name is Unknown. -/
theorem C10_losangeles_feed_unknown_witness :
    (⟨"MarineTraffic", "Unknown", "Unknown", "Disruption",
      "Strike at terminal - ", "t", 15, "k"⟩ : SignalRecord).port_name =
      "Unknown" :=
  C10_losangeles_feed_unknown.2.2.2.1 "t" ⟨"Strike at terminal", none, "k"⟩
    ⟨"MarineTraffic", "Unknown", "Unknown", "Disruption",
      "Strike at terminal - ", "t", 15, "k"⟩ (by decide)
